import Mathlib

/-!
Verification of the Grading Job Lifecycle Coordinator specification
against the Test_Paper_OCR sources.

The client-side embedding follows `frontend/src/pages/Results.tsx` and
`frontend/src/pages/TeacherDashboard.tsx`.  The coordinator operations
(`commit`, `applyOverride`, `reassess`, `generateReport`, `downloadReport`)
live behind the API layer and are not part of the sources; they are
modelled from the specification and marked as such.

Numbers (marks, percentages) are embedded as rationals.
-/

/-- Feedback record, from the `FeedbackData` interface in Results.tsx. -/
structure FeedbackData where
  feedback : String
  strengths : List String
  improvements : List String
  recommendations : List String
deriving DecidableEq, Repr

/-- One per-question answer, from the `answers` element type of the
`ResultData` interface in Results.tsx. -/
structure AnswerRecord where
  question_number : Nat
  question_text : Option String
  answer_text : Sum String (List String)
  max_marks : Rat
  marks_obtained : Rat
  is_correct : Option Bool
  explanation : Option String
  suggestions : Option (List String)
  question_type : Option String
deriving DecidableEq, Repr

/-- The job projection shown by the Results page, from the `ResultData`
interface in Results.tsx.  The untyped `feedback` payload is modelled as
an opaque optional string. -/
structure ResultData where
  student_name : String
  exam_name : String
  subject : String
  total_marks : Rat
  marks_obtained : Rat
  grade : Option String
  percentage : Rat
  state : Option String
  insights : Option FeedbackData
  feedback : Option String
  answers : List AnswerRecord
deriving DecidableEq, Repr

/-- The specification's aggregate: Σ AnswerRecord.marks_obtained. -/
def sumMarks (answers : List AnswerRecord) : Rat :=
  (answers.map (fun a => a.marks_obtained)).sum

/-- The local state update performed by `handleSaveEdit` in Results.tsx
after the API call succeeds: the edited answer's marks are replaced, the
total is recomputed with `reduce`, and the percentage is
`(totalMarks / data.total_marks) * 100`. -/
def handleSaveEditUpdate (data : ResultData) (questionNumber : Nat)
    (editMarks : Rat) : ResultData :=
  let updatedAnswers := data.answers.map (fun ans =>
    if ans.question_number = questionNumber then
      { ans with marks_obtained := editMarks }
    else ans)
  let totalMarks := updatedAnswers.foldl (fun sum ans => sum + ans.marks_obtained) 0
  let percentage := (totalMarks / data.total_marks) * 100
  { data with
    answers := updatedAnswers,
    marks_obtained := totalMarks,
    percentage := percentage }

/-- `handleSaveEdit` from Results.tsx as a function of the displayed data:
it rejects `editMarks < 0 || editMarks > maxMarks` before any API call or
local update (returning `none`), and otherwise commits the local update. -/
def handleSaveEdit (data : ResultData) (questionNumber : Nat)
    (maxMarks : Rat) (editMarks : Rat) : Option ResultData :=
  if editMarks < 0 ∨ editMarks > maxMarks then none
  else some (handleSaveEditUpdate data questionNumber editMarks)

/-- The `reduce`-style fold used in Results.tsx agrees with the
specification's Σ over `marks_obtained`. -/
theorem foldl_marks_eq_sumMarks (answers : List AnswerRecord) (x : Rat) :
    answers.foldl (fun sum ans => sum + ans.marks_obtained) x = x + sumMarks answers := by
  induction answers generalizing x with
  | nil => simp [sumMarks]
  | cons a rest ih =>
      simp only [List.foldl_cons, sumMarks, List.map_cons, List.sum_cons] at *
      rw [ih]
      ring

/-- The local state update performed by `handleReGrade` in Results.tsx
after `reassessAnswers` succeeds: `answers`, `marks_obtained` and
`percentage` come from the response while the rest of the job data is
spread unchanged. -/
def handleReGradeUpdate (data : ResultData) (assessed_answers : List AnswerRecord)
    (total_marks_obtained : Rat) (percentage : Rat) : ResultData :=
  { data with
    answers := assessed_answers,
    marks_obtained := total_marks_obtained,
    percentage := percentage }

/-- `handleReGrade` from Results.tsx as a function of the service outcome:
on success the response fields replace the displayed aggregates; the catch
branch leaves the displayed job data untouched (it only reports the error). -/
def handleReGrade (data : ResultData)
    (response : Option (List AnswerRecord × Rat × Rat)) : ResultData :=
  match response with
  | some (assessed_answers, total_marks_obtained, percentage) =>
      handleReGradeUpdate data assessed_answers total_marks_obtained percentage
  | none => data

/-- The state allow-list checked by `handleDownload` and `canDownload`
in Results.tsx. -/
def validStates : List String := ["feedback_generated", "reviewed", "completed"]

/-- The guard at the top of `handleDownload` in Results.tsx:
`data?.state && !validStates.includes(data.state)` causes an early return
before `generateReport` is called. -/
def handleDownloadRejects (state : Option String) : Bool :=
  match state with
  | some s => !(validStates.contains s)
  | none => false

/-- The `canDownload` flag in Results.tsx:
`data.state && validStates.includes(data.state)`; the Download button is
disabled when this is false. -/
def canDownload (state : Option String) : Bool :=
  match state with
  | some s => validStates.contains s
  | none => false

/-- Modelled from the spec: the job lifecycle states of §4.2; the backend
coordinator holding them is not part of the sources. -/
inductive JobState where
  | uploaded
  | processing
  | assessed
  | feedback_generated
  | reviewed
  | completed
  | failed
  | deleted
deriving DecidableEq, Repr

/-- The backend state strings observed by the client code (Results.tsx
compares `data.state` against `"failed"`, `"feedback_generated"`,
`"reviewed"`, `"completed"`). -/
def stateString : JobState → String
  | .uploaded => "uploaded"
  | .processing => "processing"
  | .assessed => "assessed"
  | .feedback_generated => "feedback_generated"
  | .reviewed => "reviewed"
  | .completed => "completed"
  | .failed => "failed"
  | .deleted => "deleted"

/-- Modelled from the spec: the error taxonomy of §7; the backend
coordinator raising these is not part of the sources. -/
inductive JobError where
  | NotFound
  | InvalidTransition
  | Conflict
  | UnknownQuestion
  | MarksOutOfRange
  | AssessmentUnavailable
  | FeedbackUnavailable
  | ReportNotReady
deriving DecidableEq, Repr

/-- Modelled from the spec: the cached rendered-report handle plus the job
`version` at which it was rendered (§3); the Report Gate is not part of
the sources. -/
structure Report where
  handle : Nat
  version : Nat
deriving DecidableEq, Repr

/-- Modelled from the spec: the central Job entity of §3; the backend job
record is not part of the sources. -/
structure Job where
  job_id : String
  version : Nat
  state : JobState
  reference_id : Option String
  answers : List AnswerRecord
  total_marks : Rat
  marks_obtained : Rat
  percentage : Rat
  grade : Option String
  insights : Option FeedbackData
  report : Option Report
deriving DecidableEq, Repr

/-- Modelled from the spec: the Job Record Store's atomic
`commit(job_id, expected_version, mutator)` of §4.1; the store is not part
of the sources.  It writes the mutated job only if the current version
equals `expected_version`, bumping the version by exactly one, else fails
with `Conflict` and performs no write. -/
def commit (store : Job) (expected_version : Nat) (mutator : Job → Job) :
    Except JobError Job :=
  if store.version = expected_version then
    .ok { mutator store with version := store.version + 1 }
  else .error .Conflict

/-- Modelled from the spec: one entry of an override batch of §4.3. -/
structure OverrideEntry where
  question_number : Nat
  marks_obtained : Rat
deriving DecidableEq, Repr

/-- Look up the answer targeted by an override entry. -/
def findAnswer (answers : List AnswerRecord) (qn : Nat) : Option AnswerRecord :=
  answers.find? (fun a => a.question_number == qn)

/-- Modelled from the spec: validity of one override entry (§4.3): the
target `question_number` must exist in the job's answers and the new value
must lie in `[0, max_marks]` for that question. -/
def entryValid (answers : List AnswerRecord) (e : OverrideEntry) : Prop :=
  ∃ a, findAnswer answers e.question_number = some a ∧
    0 ≤ e.marks_obtained ∧ e.marks_obtained ≤ a.max_marks

instance (answers : List AnswerRecord) (e : OverrideEntry) :
    Decidable (entryValid answers e) := by
  unfold entryValid
  cases findAnswer answers e.question_number with
  | none => exact .isFalse (by simp)
  | some a => exact decidable_of_iff (0 ≤ e.marks_obtained ∧ e.marks_obtained ≤ a.max_marks) (by simp)

/-- Modelled from the spec: the Mark Override Engine's batch validation
(§4.3): the first entry with an unknown question fails with
`UnknownQuestion`, the first out-of-range value with `MarksOutOfRange`. -/
def validateEntries (answers : List AnswerRecord) :
    List OverrideEntry → Except JobError Unit
  | [] => .ok ()
  | e :: rest =>
    match findAnswer answers e.question_number with
    | none => .error .UnknownQuestion
    | some a =>
        if 0 ≤ e.marks_obtained ∧ e.marks_obtained ≤ a.max_marks then
          validateEntries answers rest
        else .error .MarksOutOfRange

/-- Apply one override entry to the answer sequence. -/
def applyEntry (answers : List AnswerRecord) (e : OverrideEntry) : List AnswerRecord :=
  answers.map (fun a =>
    if a.question_number = e.question_number then
      { a with marks_obtained := e.marks_obtained }
    else a)

/-- Modelled from the spec: the states from which `apply mark override`
is legal (§4.2 transition table). -/
def overrideStates : List JobState :=
  [.assessed, .feedback_generated, .reviewed, .completed]

/-- Modelled from the spec: `applyOverride` (§4.3); the Mark Override
Engine is not part of the sources.  The Guard is consulted first; the
batch is validated as a whole; on success every entry is applied, the
aggregates are recomputed in the same commit, the state becomes
`reviewed`, and the version is bumped by one. -/
def applyOverride (job : Job) (entries : List OverrideEntry) : Except JobError Job :=
  if job.state ∈ overrideStates then
    match validateEntries job.answers entries with
    | .error e => .error e
    | .ok () =>
        let newAnswers := entries.foldl applyEntry job.answers
        .ok { job with
          answers := newAnswers,
          marks_obtained := sumMarks newAnswers,
          percentage := 100 * sumMarks newAnswers / job.total_marks,
          state := .reviewed,
          version := job.version + 1 }
  else .error .InvalidTransition

/-- Modelled from the spec: the states from which `re-assess` is legal
(§4.2 transition table). -/
def reassessStates : List JobState :=
  [.assessed, .reviewed, .feedback_generated, .completed]

/-- Modelled from the spec: `reassess` (§4.4); the Reassessment
Orchestrator is not part of the sources.  The Assessment Service outcome
is a parameter: `none` is a service failure (timeout, malformed response,
remote error), `some newAnswers` is its returned set.  On success the
entire answer sequence is replaced, aggregates are recomputed, the state
becomes `assessed`, and the cached report and insights are cleared; on
failure the error `AssessmentUnavailable` is surfaced and no write
happens. -/
def reassess (job : Job) (serviceResult : Option (List AnswerRecord)) :
    Except JobError Job :=
  if job.state ∈ reassessStates then
    match serviceResult with
    | none => .error .AssessmentUnavailable
    | some newAnswers =>
        .ok { job with
          answers := newAnswers,
          marks_obtained := sumMarks newAnswers,
          percentage := 100 * sumMarks newAnswers / job.total_marks,
          state := .assessed,
          insights := none,
          report := none,
          version := job.version + 1 }
  else .error .InvalidTransition

/-- Modelled from the spec: the states from which `generate report` is
legal (§4.2 transition table, §4.5 guard). -/
def reportStates : List JobState :=
  [.feedback_generated, .reviewed, .completed]

/-- Modelled from the spec: `generateReport` (§4.5); the Report Gate is
not part of the sources.  `render` is the handle the Renderer (a pure
function of the job state) would produce.  The result carries the updated
job, the returned handle, and whether the Renderer was invoked.  If a
cached report exists and its recorded version equals the job's current
version, the cached handle is returned without invoking the Renderer;
otherwise the Renderer is invoked, the new handle is stored tagged with
the job's (post-commit) current version, and the state becomes
`completed`. -/
def generateReport (job : Job) (render : Nat) : Except JobError (Job × Nat × Bool) :=
  if job.state ∈ reportStates then
    match job.report with
    | some r =>
        if r.version = job.version then .ok (job, r.handle, false)
        else
          .ok ({ job with
                  report := some ⟨render, job.version + 1⟩,
                  state := .completed,
                  version := job.version + 1 }, render, true)
    | none =>
        .ok ({ job with
                report := some ⟨render, job.version + 1⟩,
                state := .completed,
                version := job.version + 1 }, render, true)
  else .error .InvalidTransition

/-- Modelled from the spec: `downloadReport` (§4.5); the Report Gate is
not part of the sources.  It requires a non-stale cached report; if the
report is absent or stale it fails with `ReportNotReady` without
generating one. -/
def downloadReport (job : Job) : Except JobError Nat :=
  match job.report with
  | some r => if r.version = job.version then .ok r.handle else .error .ReportNotReady
  | none => .error .ReportNotReady

/-- The download path of Results.tsx (`handleDownload`): `generateReport`
first, then `downloadReport` on the updated job. -/
def handleDownloadPath (job : Job) (render : Nat) : Except JobError Nat :=
  match generateReport job render with
  | .error e => .error e
  | .ok (updated, _, _) => downloadReport updated

/-- The download path of TeacherDashboard.tsx (`handleDownloadReport`):
it calls `downloadReport` alone, with no prior generation. -/
def handleDownloadReportPath (job : Job) : Except JobError Nat :=
  downloadReport job

/-- A two-question answer sheet (the §8 scenario: `total_marks=100`, two
questions with `max_marks=50` each, both scored 40). -/
def qA : AnswerRecord :=
  { question_number := 1, question_text := none, answer_text := .inl "ans1",
    max_marks := 50, marks_obtained := 40, is_correct := none,
    explanation := none, suggestions := none, question_type := none }

/-- Second sample question. -/
def qB : AnswerRecord := { qA with question_number := 2 }

/-- Sample displayed result data for the §8 scenario. -/
def sampleData : ResultData :=
  { student_name := "Asha", exam_name := "Midterm", subject := "Math",
    total_marks := 100, marks_obtained := 80, grade := none, percentage := 80,
    state := some "assessed", insights := none, feedback := none,
    answers := [qA, qB] }

/-- Sample backend job for the §8 scenario. -/
def sampleJob : Job :=
  { job_id := "job-1", version := 3, state := .assessed, reference_id := none,
    answers := [qA, qB], total_marks := 100, marks_obtained := 80,
    percentage := 80, grade := none, insights := none, report := none }

/-- C1: immediately after a successful mark override is applied in
`handleSaveEdit`, the displayed job's `marks_obtained` equals the sum of
`marks_obtained` over all answer records, and its `percentage` equals
100 × marks_obtained / total_marks, both recomputed in the same update. -/
theorem handleSaveEdit_recomputes_aggregates (data : ResultData)
    (questionNumber : Nat) (maxMarks editMarks : Rat) (updated : ResultData)
    (h : handleSaveEdit data questionNumber maxMarks editMarks = some updated) :
    updated.marks_obtained = sumMarks updated.answers ∧
    updated.percentage = 100 * updated.marks_obtained / updated.total_marks := by
  unfold handleSaveEdit at h
  split at h
  · exact absurd h (by simp)
  · rw [Option.some_inj] at h
    subst h
    unfold handleSaveEditUpdate
    simp only []
    rw [foldl_marks_eq_sumMarks]
    constructor <;> ring

/-- Witness for C1 on the §8 scenario: editing question 1 to 50 marks. -/
theorem handleSaveEdit_recomputes_aggregates_witness :
    (handleSaveEditUpdate sampleData 1 50).marks_obtained =
      sumMarks (handleSaveEditUpdate sampleData 1 50).answers ∧
    (handleSaveEditUpdate sampleData 1 50).percentage =
      100 * (handleSaveEditUpdate sampleData 1 50).marks_obtained /
        (handleSaveEditUpdate sampleData 1 50).total_marks :=
  handleSaveEdit_recomputes_aggregates sampleData 1 50 50
    (handleSaveEditUpdate sampleData 1 50) rfl

/-- Batch validation succeeds exactly when every entry is valid. -/
theorem validateEntries_ok_iff (answers : List AnswerRecord)
    (entries : List OverrideEntry) :
    validateEntries answers entries = .ok () ↔ ∀ e ∈ entries, entryValid answers e := by
  induction entries with
  | nil => simp [validateEntries]
  | cons e rest ih =>
      unfold validateEntries
      constructor
      · intro h
        split at h
        · cases h
        · split at h
          · intro e2 he2
            rcases List.mem_cons.mp he2 with rfl | hm
            · rename_i a hf hrange
              exact ⟨a, hf, hrange⟩
            · exact ih.mp h e2 hm
          · cases h
      · intro h
        split
        · rename_i hf
          obtain ⟨a, ha, _⟩ := h e (by simp)
          rw [hf] at ha
          cases ha
        · split
          · exact ih.mpr (fun e2 he2 => h e2 (List.mem_cons_of_mem _ he2))
          · rename_i a hf hrange
            obtain ⟨a2, ha2, hr⟩ := h e (by simp)
            rw [hf] at ha2
            rw [Option.some_inj] at ha2
            subst ha2
            exact absurd hr hrange

/-- When batch validation fails, the error is `UnknownQuestion` or
`MarksOutOfRange`. -/
theorem validateEntries_error_cases (answers : List AnswerRecord)
    (entries : List OverrideEntry) (err : JobError)
    (h : validateEntries answers entries = .error err) :
    err = .UnknownQuestion ∨ err = .MarksOutOfRange := by
  induction entries with
  | nil => cases h
  | cons e rest ih =>
      unfold validateEntries at h
      split at h
      · injection h with h
        exact .inl h.symm
      · split at h
        · exact ih h
        · injection h with h
          exact .inr h.symm

/-- C2: an override batch containing any entry whose value lies outside
`[0, max_marks]`, or naming an unknown question, is rejected whole with
`MarksOutOfRange` / `UnknownQuestion` and nothing is written; otherwise
every entry applies atomically as one new version.  In the code,
`handleSaveEdit` rejects `editMarks < 0 || editMarks > maxMarks` before
any API call or local update. -/
theorem applyOverride_rejects_invalid_batch (job : Job)
    (entries : List OverrideEntry) (data : ResultData) (questionNumber : Nat)
    (maxMarks editMarks : Rat) (hstate : job.state ∈ overrideStates) :
    ((∃ e ∈ entries, ¬ entryValid job.answers e) →
       applyOverride job entries = .error .UnknownQuestion ∨
       applyOverride job entries = .error .MarksOutOfRange) ∧
    ((∀ e ∈ entries, entryValid job.answers e) →
       ∃ updated, applyOverride job entries = .ok updated ∧
         updated.answers = entries.foldl applyEntry job.answers ∧
         updated.version = job.version + 1) ∧
    ((editMarks < 0 ∨ editMarks > maxMarks) →
       handleSaveEdit data questionNumber maxMarks editMarks = none) := by
  refine ⟨?_, ?_, ?_⟩
  · rintro ⟨e, he, hinvalid⟩
    cases hv : validateEntries job.answers entries with
    | ok u =>
        cases u
        exact absurd ((validateEntries_ok_iff _ _).mp hv e he) hinvalid
    | error err =>
        have hcases := validateEntries_error_cases _ _ _ hv
        unfold applyOverride
        rw [if_pos hstate, hv]
        rcases hcases with rfl | rfl
        · exact .inl rfl
        · exact .inr rfl
  · intro hall
    have hv : validateEntries job.answers entries = .ok () :=
      (validateEntries_ok_iff _ _).mpr hall
    have happ : applyOverride job entries = .ok { job with
        answers := entries.foldl applyEntry job.answers,
        marks_obtained := sumMarks (entries.foldl applyEntry job.answers),
        percentage :=
          100 * sumMarks (entries.foldl applyEntry job.answers) / job.total_marks,
        state := .reviewed,
        version := job.version + 1 } := by
      unfold applyOverride
      rw [if_pos hstate, hv]
    exact ⟨_, happ, rfl, rfl⟩
  · intro hbad
    unfold handleSaveEdit
    rw [if_pos hbad]

/-- Witness for C2: overriding question 1 with 60 > max_marks = 50 is
rejected, by `applyOverride` and by `handleSaveEdit` alike. -/
theorem applyOverride_rejects_invalid_batch_witness :
    (applyOverride sampleJob [{ question_number := 1, marks_obtained := 60 }]
        = .error .UnknownQuestion ∨
     applyOverride sampleJob [{ question_number := 1, marks_obtained := 60 }]
        = .error .MarksOutOfRange) ∧
    handleSaveEdit sampleData 1 50 60 = none := by
  have h := applyOverride_rejects_invalid_batch sampleJob
    [{ question_number := 1, marks_obtained := 60 }] sampleData 1 50 60 (by decide)
  refine ⟨h.1 ⟨{ question_number := 1, marks_obtained := 60 }, by simp, by decide⟩,
    h.2.2 (by decide)⟩

/-- C3: a successful `reassess` replaces the entire answer sequence (not
merged) with the service's returned set, recomputes aggregates, sets the
state to `assessed`, clears the cached report and insights, and discards
prior overrides (the result does not depend on the prior answers).  In
the code, `handleReGrade` replaces `answers`, `marks_obtained` and
`percentage` from the response while the rest of the job data is spread
unchanged. -/
theorem reassess_replaces_answers (job : Job) (newAnswers : List AnswerRecord)
    (data : ResultData) (t p : Rat)
    (hstate : job.state ∈ reassessStates) :
    (∃ updated, reassess job (some newAnswers) = .ok updated ∧
       updated.answers = newAnswers ∧
       updated.marks_obtained = sumMarks newAnswers ∧
       updated.percentage = 100 * updated.marks_obtained / updated.total_marks ∧
       updated.state = .assessed ∧
       updated.report = none ∧
       updated.insights = none) ∧
    (∀ priorAnswers, reassess { job with answers := priorAnswers } (some newAnswers)
        = reassess job (some newAnswers)) ∧
    ((handleReGrade data (some (newAnswers, t, p))).answers = newAnswers ∧
     (handleReGrade data (some (newAnswers, t, p))).marks_obtained = t ∧
     (handleReGrade data (some (newAnswers, t, p))).percentage = p ∧
     (handleReGrade data (some (newAnswers, t, p))).state = data.state ∧
     (handleReGrade data (some (newAnswers, t, p))).student_name = data.student_name ∧
     (handleReGrade data (some (newAnswers, t, p))).insights = data.insights ∧
     (handleReGrade data (some (newAnswers, t, p))).total_marks = data.total_marks) := by
  refine ⟨⟨{ job with
      answers := newAnswers,
      marks_obtained := sumMarks newAnswers,
      percentage := 100 * sumMarks newAnswers / job.total_marks,
      state := .assessed, insights := none, report := none,
      version := job.version + 1 }, ?_, rfl, rfl, rfl, rfl, rfl, rfl⟩, ?_, ?_⟩
  · unfold reassess
    rw [if_pos hstate]
  · intro priorAnswers
    rfl
  · exact ⟨rfl, rfl, rfl, rfl, rfl, rfl, rfl⟩

/-- Witness for C3: re-assessing the sample job with the single-answer
set `[qA]` replaces the displayed answers and ignores the prior set. -/
theorem reassess_replaces_answers_witness :
    (handleReGrade sampleData (some ([qA], 40, 40))).answers = [qA] ∧
    reassess { sampleJob with answers := [qB] } (some [qA])
      = reassess sampleJob (some [qA]) := by
  have h := reassess_replaces_answers sampleJob [qA] sampleData 40 40 (by decide)
  exact ⟨h.2.2.1, h.2.1 [qB]⟩

/-- C5: when the reassessment service fails, the job's state and content
are unchanged (no write happens) and `AssessmentUnavailable` is surfaced;
in the code, the catch branch of `handleReGrade` leaves the displayed job
data untouched. -/
theorem reassess_failure_leaves_job_unchanged (job : Job) (data : ResultData)
    (hstate : job.state ∈ reassessStates) :
    reassess job none = .error .AssessmentUnavailable ∧
    handleReGrade data none = data := by
  constructor
  · unfold reassess
    rw [if_pos hstate]
  · rfl

/-- Witness for C5 on the sample job and sample displayed data. -/
theorem reassess_failure_leaves_job_unchanged_witness :
    reassess sampleJob none = .error .AssessmentUnavailable ∧
    handleReGrade sampleData none = sampleData :=
  reassess_failure_leaves_job_unchanged sampleJob sampleData (by decide)

/-- The job produced by the regeneration branch of `generateReport`. -/
def regenerated (job : Job) (render : Nat) : Job :=
  { job with
    report := some { handle := render, version := job.version + 1 },
    state := .completed,
    version := job.version + 1 }

/-- Any successful `generateReport` leaves the job in a report-eligible
state holding a cached report whose recorded version equals the job's
current version and whose handle is the returned one. -/
theorem generateReport_ok_inv (job : Job) (render : Nat) (updated : Job)
    (handle : Nat) (invoked : Bool)
    (h : generateReport job render = .ok (updated, handle, invoked)) :
    updated.state ∈ reportStates ∧
    updated.report = some ⟨handle, updated.version⟩ := by
  unfold generateReport at h
  split at h
  · rename_i hs
    split at h
    · rename_i r2 hr2
      split at h
      · rename_i hv
        simp only [Except.ok.injEq, Prod.mk.injEq] at h
        obtain ⟨rfl, rfl, rfl⟩ := h
        refine ⟨hs, ?_⟩
        rw [hr2, ← hv]
      · simp only [Except.ok.injEq, Prod.mk.injEq] at h
        obtain ⟨rfl, rfl, rfl⟩ := h
        exact ⟨show JobState.completed ∈ reportStates by decide, rfl⟩
    · simp only [Except.ok.injEq, Prod.mk.injEq] at h
      obtain ⟨rfl, rfl, rfl⟩ := h
      exact ⟨show JobState.completed ∈ reportStates by decide, rfl⟩
  · cases h

/-- C4: `generateReport` is idempotent: with a cached report whose
recorded version equals the job's current version it returns the cached
handle without invoking the Renderer; two calls with no intervening
mutation return the same handle and the second never invokes the
Renderer; otherwise the Renderer is invoked, the new handle is stored
tagged with the job's current version, and the job transitions to
`completed`. -/
theorem generateReport_idempotent (job : Job) (r : Report)
    (render render2 : Nat) :
    (job.state ∈ reportStates → job.report = some r → r.version = job.version →
       generateReport job render = .ok (job, r.handle, false)) ∧
    (∀ updated handle invoked,
       generateReport job render = .ok (updated, handle, invoked) →
       generateReport updated render2 = .ok (updated, handle, false)) ∧
    (job.state ∈ reportStates →
       (job.report = none ∨ (job.report = some r ∧ r.version ≠ job.version)) →
       ∃ updated, generateReport job render = .ok (updated, render, true) ∧
         updated.report = some ⟨render, updated.version⟩ ∧
         updated.state = .completed) := by
  refine ⟨?_, ?_, ?_⟩
  · intro hs hr hv
    simp [generateReport, hs, hr, hv]
  · intro updated handle invoked h
    obtain ⟨hs2, hr2⟩ := generateReport_ok_inv job render updated handle invoked h
    simp [generateReport, hs2, hr2]
  · intro hs hcase
    rcases hcase with hnone | ⟨hr, hv⟩
    · refine ⟨regenerated job render, ?_, rfl, rfl⟩
      simp [generateReport, regenerated, hs, hnone]
    · refine ⟨regenerated job render, ?_, rfl, rfl⟩
      simp [generateReport, regenerated, hs, hr, hv]

/-- The sample job after feedback synthesis. -/
def sampleJobFG : Job := { sampleJob with state := .feedback_generated }

/-- The sample job after a first `generateReport`, holding the rendered
handle 7 tagged with the post-commit version. -/
def sampleJobCompleted : Job :=
  { sampleJobFG with report := some ⟨7, 4⟩, state := .completed, version := 4 }

/-- Witness for C4: a second `generateReport` on the sample job returns
the cached handle 7 without invoking the Renderer. -/
theorem generateReport_idempotent_witness :
    generateReport sampleJobCompleted 9 = .ok (sampleJobCompleted, 7, false) :=
  (generateReport_idempotent sampleJobFG ⟨0, 0⟩ 7 9).2.1
    sampleJobCompleted 7 true rfl

/-- The backend state string of a state lies in the client allow-list
exactly when the state is report-eligible. -/
theorem stateString_validStates (st : JobState) :
    stateString st ∈ validStates ↔ st ∈ reportStates := by
  cases st <;> decide

/-- C6: `generateReport` is permitted only from `feedback_generated`,
`reviewed` or `completed`; any other state fails with `InvalidTransition`
and nothing is written.  In the code, `handleDownload` rejects states
outside this set before calling `generateReport`, and the `canDownload`
flag disables the Download button under the same condition. -/
theorem generateReport_guarded (job : Job) (render : Nat)
    (h : job.state ∉ reportStates) :
    generateReport job render = .error .InvalidTransition ∧
    handleDownloadRejects (some (stateString job.state)) = true ∧
    canDownload (some (stateString job.state)) = false := by
  have hmem : stateString job.state ∉ validStates := fun hm =>
    h ((stateString_validStates _).mp hm)
  refine ⟨?_, ?_, ?_⟩
  · unfold generateReport
    rw [if_neg h]
  · simp [handleDownloadRejects, hmem]
  · simp [canDownload, hmem]

/-- Witness for C6: a job still in `processing` cannot generate or
download a report. -/
theorem generateReport_guarded_witness :
    generateReport { sampleJob with state := .processing } 7
      = .error .InvalidTransition ∧
    handleDownloadRejects (some (stateString JobState.processing)) = true ∧
    canDownload (some (stateString JobState.processing)) = false :=
  generateReport_guarded { sampleJob with state := .processing } 7 (by decide)

/-- C7: `downloadReport` succeeds only on a non-stale cached report; when
the report is absent or stale it fails with `ReportNotReady` rather than
generating one.  Results.tsx always runs `generateReport` first, so its
download path succeeds; TeacherDashboard's `handleDownloadReport` calls
`downloadReport` alone and hits `ReportNotReady` on a report-less job. -/
theorem downloadReport_requires_fresh_report (job : Job) (r : Report)
    (render : Nat) :
    (job.report = none →
       downloadReport job = .error .ReportNotReady ∧
       handleDownloadReportPath job = .error .ReportNotReady) ∧
    (job.report = some r → r.version ≠ job.version →
       downloadReport job = .error .ReportNotReady) ∧
    (job.report = some r → r.version = job.version →
       downloadReport job = .ok r.handle) ∧
    (∀ updated handle invoked,
       generateReport job render = .ok (updated, handle, invoked) →
       handleDownloadPath job render = .ok handle) := by
  refine ⟨?_, ?_, ?_, ?_⟩
  · intro hnone
    constructor
    · simp [downloadReport, hnone]
    · simp [handleDownloadReportPath, downloadReport, hnone]
  · intro hr hv
    simp [downloadReport, hr, hv]
  · intro hr hv
    simp [downloadReport, hr, hv]
  · intro updated handle invoked h
    obtain ⟨_, hrep⟩ := generateReport_ok_inv job render updated handle invoked h
    unfold handleDownloadPath
    rw [h]
    simp [downloadReport, hrep]

/-- Witness for C7: the report-less sample job fails the dashboard's bare
download with `ReportNotReady`, while the Results page path (generate,
then download) returns the rendered handle. -/
theorem downloadReport_requires_fresh_report_witness :
    handleDownloadReportPath sampleJobFG = .error .ReportNotReady ∧
    handleDownloadPath sampleJobFG 7 = .ok 7 := by
  have h := downloadReport_requires_fresh_report sampleJobFG ⟨0, 0⟩ 7
  exact ⟨(h.1 rfl).2, h.2.2.2 (regenerated sampleJobFG 7) 7 true rfl⟩

/-- C8: `commit` writes the mutated job only when the job's current
version equals `expected_version`, and then the new version is exactly
`expected_version + 1`; otherwise it fails with `Conflict` and performs
no write.  Consequently no two mutations commit against the same prior
version. -/
theorem commit_optimistic_lock (store : Job) (expected_version : Nat)
    (mutator mutator2 : Job → Job) :
    (store.version = expected_version →
       ∃ updated, commit store expected_version mutator = .ok updated ∧
         updated.version = expected_version + 1) ∧
    (store.version ≠ expected_version →
       commit store expected_version mutator = .error .Conflict) ∧
    (∀ updated, commit store expected_version mutator = .ok updated →
       commit updated expected_version mutator2 = .error .Conflict) := by
  refine ⟨?_, ?_, ?_⟩
  · intro hv
    refine ⟨{ mutator store with version := store.version + 1 }, ?_, ?_⟩
    · unfold commit
      rw [if_pos hv]
    · simp [hv]
  · intro hv
    unfold commit
    rw [if_neg hv]
  · intro updated h
    unfold commit at h
    split at h
    · rename_i hv
      rw [Except.ok.injEq] at h
      subst h
      unfold commit
      rw [if_neg (by simp [hv])]
    · cases h

/-- Witness for C8: committing against the sample job's version 3
succeeds with version 4; a second commit against version 3 conflicts. -/
theorem commit_optimistic_lock_witness :
    commit sampleJob 3 id = .ok { sampleJob with version := 4 } ∧
    commit { sampleJob with version := 4 } 3 id = .error .Conflict := by
  have h := commit_optimistic_lock sampleJob 3 id id
  obtain ⟨updated, hok, hver⟩ := h.1 rfl
  refine ⟨?_, ?_⟩
  · exact rfl
  · exact h.2.2 { sampleJob with version := 4 } rfl

/-- C9: from any state in `{assessed, feedback_generated, reviewed,
completed}`, a valid `applyOverride` batch transitions the job to
`reviewed`; the local `handleSaveEdit` update leaves the displayed state
field untouched (the backend decides the state). -/
theorem applyOverride_transitions_to_reviewed (job : Job)
    (entries : List OverrideEntry) (data : ResultData)
    (questionNumber : Nat) (editMarks : Rat)
    (hstate : job.state ∈ overrideStates)
    (hvalid : ∀ e ∈ entries, entryValid job.answers e) :
    (∃ updated, applyOverride job entries = .ok updated ∧
       updated.state = .reviewed) ∧
    (handleSaveEditUpdate data questionNumber editMarks).state = data.state := by
  have hv : validateEntries job.answers entries = .ok () :=
    (validateEntries_ok_iff _ _).mpr hvalid
  refine ⟨⟨{ job with
      answers := entries.foldl applyEntry job.answers,
      marks_obtained := sumMarks (entries.foldl applyEntry job.answers),
      percentage :=
        100 * sumMarks (entries.foldl applyEntry job.answers) / job.total_marks,
      state := .reviewed,
      version := job.version + 1 }, ?_, rfl⟩, rfl⟩
  unfold applyOverride
  rw [if_pos hstate, hv]

/-- The state of a committed job result, when the operation succeeded. -/
def resultState : Except JobError Job → Option JobState
  | .ok updated => some updated.state
  | .error _ => none

/-- Witness for C9: the §8 scenario override of question 1 to 50 marks
on the assessed sample job commits and lands in `reviewed`. -/
theorem applyOverride_transitions_to_reviewed_witness :
    resultState (applyOverride sampleJob
      [{ question_number := 1, marks_obtained := 50 }]) = some .reviewed ∧
    (handleSaveEditUpdate sampleData 1 50).state = sampleData.state := by
  obtain ⟨⟨updated, hok, hstate⟩, hlocal⟩ :=
    applyOverride_transitions_to_reviewed sampleJob
      [{ question_number := 1, marks_obtained := 50 }] sampleData 1 50
      (by decide) (by decide)
  exact ⟨by rw [hok, resultState, hstate], hlocal⟩

/-- C10: an accepted single-question override in `handleSaveEdit` leaves
every answer record with a different `question_number` unchanged at its
position, and preserves `total_marks`, `student_name`, `subject`,
`insights` and every other field besides `answers`, `marks_obtained` and
`percentage`. -/
theorem handleSaveEdit_frame (data : ResultData) (questionNumber : Nat)
    (maxMarks editMarks : Rat) (updated : ResultData)
    (h : handleSaveEdit data questionNumber maxMarks editMarks = some updated) :
    (∀ (i : Nat) (a : AnswerRecord), data.answers[i]? = some a →
       a.question_number ≠ questionNumber →
       updated.answers[i]? = some a) ∧
    updated.total_marks = data.total_marks ∧
    updated.student_name = data.student_name ∧
    updated.exam_name = data.exam_name ∧
    updated.subject = data.subject ∧
    updated.grade = data.grade ∧
    updated.state = data.state ∧
    updated.insights = data.insights ∧
    updated.feedback = data.feedback := by
  unfold handleSaveEdit at h
  split at h
  · exact absurd h (by simp)
  · rw [Option.some_inj] at h
    subst h
    refine ⟨?_, rfl, rfl, rfl, rfl, rfl, rfl, rfl, rfl⟩
    intro i a hi hne
    unfold handleSaveEditUpdate
    simp [List.getElem?_map, hi, hne]

/-- Witness for C10: editing question 1 leaves question 2's record and
the job metadata untouched. -/
theorem handleSaveEdit_frame_witness :
    (handleSaveEditUpdate sampleData 1 50).answers[1]? = some qB ∧
    (handleSaveEditUpdate sampleData 1 50).total_marks = sampleData.total_marks ∧
    (handleSaveEditUpdate sampleData 1 50).insights = sampleData.insights := by
  have h := handleSaveEdit_frame sampleData 1 50 50
    (handleSaveEditUpdate sampleData 1 50) rfl
  exact ⟨h.1 1 qB (by decide) (by decide), h.2.1, h.2.2.2.2.2.2.2.1⟩
